import Mathlib

/-!
# User core and property store adapter

A shallow embedding of two Go files:

* `business/core/user/user.go`: the user business core (`Register`, `QueryByID`,
  `QueryByEmail`, `Authenticate`) over an injected `Storer`;
* `business/core/property/stores/propertydb/propertydb.go`: the SQL adapter of the
  `properties` table (`Create`, `Update`, `Delete`, `QueryByID`,
  `ExecuteUnderTransaction`).

Go results of the shape `(T, error)` are pairs `T × Option Error`, `none` being the nil
error.  State that lives outside the functions (the state behind a `Storer`, the rows of
the table, the heap of `Store` values) is passed explicitly.  Libraries outside the
repository (bcrypt, the clock, the identifier generator, the textual form of identifiers)
are parameters of the functions that call them.
-/

set_option autoImplicit false

/-! ## Values shared by both packages -/

/-- A `uuid.UUID`: sixteen bytes, read as one 128-bit number.  The zero value is `0`. -/
abbrev UUID := Fin (2 ^ 128)

/-- A `time.Time`, as an instant on an integer scale.  The zero value is `0`. -/
abbrev Time := Int

/-- A byte slice `[]byte`; the nil slice and the empty slice are both `[]`. -/
abbrev Bytes := List Nat

/-- The conversion `[]byte(s)` of a string to its UTF-8 bytes. -/
def bytesOf (s : String) : Bytes :=
  (s.data.map String.utf8EncodeChar).flatten.map UInt8.toNat

/-- The struct `mail.Address` of the standard library. -/
structure MailAddress where
  Name : String
  Address : String
deriving DecidableEq, Repr

/-- An operand of a `fmt.Errorf` call other than the wrapped error. -/
inductive FmtArg
  | uuid (u : UUID)
  | address (a : MailAddress)
deriving DecidableEq, Repr

/-- Go error values as far as the two files build and inspect them.

* `new addr` is a value made by `errors.New`; such a value is a pointer and is equal
  only to itself, so it is identified by its allocation `addr`.
* `wrap format args err` is the value of `fmt.Errorf(format, args..., err)` where
  `format` ends in the verb `%w`: it keeps the format with its operands (which fix the
  message) and unwraps to `err`. -/
inductive Error
  | new (addr : Nat)
  | wrap (format : String) (args : List FmtArg) (err : Error)
deriving DecidableEq, Repr

namespace fmt

/-- The call `fmt.Errorf(format, args..., err)` with one `%w` verb, for `err`. -/
def Errorf (format : String) (args : List FmtArg) (err : Error) : Error :=
  Error.wrap format args err

end fmt

/-- The method `Unwrap` of an error, `none` where the value has no such method. -/
def Error.Unwrap : Error → Option Error
  | .new _ => none
  | .wrap _ _ err => some err

/-- The loop of `errors.Is` on a non-nil error: compare, else unwrap and repeat.
Equality of two wrapping values is equality of their contents here; on a target made by
`errors.New` this is the pointer comparison of Go. -/
def Error.Is : Error → Error → Bool
  | .new a, target => decide (Error.new a = target)
  | .wrap f as e, target => decide (Error.wrap f as e = target) || e.Is target

namespace errors

/-- The function `errors.Is(err, target)`; a nil operand matches only nil. -/
def Is (err target : Option Error) : Bool :=
  match err, target with
  | some e, some t => e.Is t
  | none, none => true
  | _, _ => false

end errors

/-- A `*logger.Logger`, as the address of the logger. -/
abbrev Logger := Nat

/-! ## Package `user` -/

namespace user

/-- The sentinel `ErrNotFound = errors.New("user not found")`. -/
def ErrNotFound : Error := .new 1

/-- The sentinel `ErrUniqueEmail = errors.New("email is not unique")`. -/
def ErrUniqueEmail : Error := .new 2

/-- The sentinel `ErrAuthenticationFailure = errors.New("authentication failed")`. -/
def ErrAuthenticationFailure : Error := .new 3

/-- Modelled from the spec: the declaration of `UserEntity` is not among the sources.
The fields are those of the composite literal in `Register`; their types follow the data
model of the specification (display name, e-mail address, password hash, set of roles,
department, enabled flag, creation and update timestamps). -/
structure UserEntity where
  ID : UUID
  Name : String
  Email : MailAddress
  PasswordHash : Bytes
  Roles : List String
  Department : String
  Enabled : Bool
  DateCreated : Time
  DateUpdated : Time
deriving DecidableEq, Repr

/-- The zero value `UserEntity{}`. -/
def UserEntity.zero : UserEntity :=
  { ID := 0, Name := "", Email := { Name := "", Address := "" }, PasswordHash := [],
    Roles := [], Department := "", Enabled := false, DateCreated := 0, DateUpdated := 0 }

/-- Modelled from the spec: the declaration of `RegisterEntity` is not among the sources.
The fields are those `Register` reads: name, e-mail, cleartext password, roles,
department. -/
structure RegisterEntity where
  Name : String
  Email : MailAddress
  Roles : List String
  Department : String
  Password : String
deriving DecidableEq, Repr

/-- The interface `Storer`, as a table of methods over the state `σ` behind it.  Every
method may change that state and returns what the Go method returns. -/
structure Storer (σ : Type) where
  Create : σ → UserEntity → σ × Option Error
  Update : σ → UserEntity → σ × Option Error
  Delete : σ → UserEntity → σ × Option Error
  QueryByID : σ → UUID → σ × UserEntity × Option Error
  QueryByIDs : σ → List UUID → σ × List UserEntity × Option Error
  QueryByEmail : σ → MailAddress → σ × UserEntity × Option Error

/-- One invocation of a `Storer` method, with its argument. -/
inductive StorerCall
  | Create (usr : UserEntity)
  | Update (usr : UserEntity)
  | Delete (usr : UserEntity)
  | QueryByID (userID : UUID)
  | QueryByIDs (userID : List UUID)
  | QueryByEmail (email : MailAddress)
deriving DecidableEq, Repr

/-- What a call of the core runs against: the state behind the `Storer`, the `Storer`
invocations made so far (oldest first), and the number of results drawn so far from the
sources outside the program (random source, clock, identifier generator). -/
structure World (σ : Type) where
  store : σ
  calls : List StorerCall
  tick : Nat

/-- The libraries the core calls.  A result that differs from call to call is a function
of the draw `tick` at which the call is made.

* `GenerateFromPassword` is `bcrypt.GenerateFromPassword(password, cost)`;
* `CompareHashAndPassword` is `bcrypt.CompareHashAndPassword(hash, password)`;
* `Now` is `time.Now()`;
* `New` is `uuid.New()`. -/
structure Env where
  GenerateFromPassword : Nat → Bytes → Int → Bytes × Option Error
  CompareHashAndPassword : Bytes → Bytes → Option Error
  Now : Nat → Time
  New : Nat → UUID

namespace bcrypt

/-- The constant `bcrypt.DefaultCost`. -/
def DefaultCost : Int := 10

end bcrypt

/-- The struct `Core`. -/
structure Core (σ : Type) where
  store : Storer σ
  log : Logger

/-- The constructor `NewCore`. -/
def NewCore {σ : Type} (log : Logger) (store : Storer σ) : Core σ :=
  { store := store, log := log }

/-- The entity `Register` builds from its input, the hash, the clock reading and the
fresh identifier: the composite literal `UserEntity{...}` of the source. -/
def newUser (nu : RegisterEntity) (hash : Bytes) (now : Time) (id : UUID) : UserEntity :=
  { ID := id,
    Name := nu.Name,
    Email := nu.Email,
    PasswordHash := hash,
    Roles := nu.Roles,
    Department := nu.Department,
    Enabled := true,
    DateCreated := now,
    DateUpdated := now }

/-- The method `Core.Register`: hash the password, read the clock once, draw an
identifier, hand the entity to `Storer.Create`. -/
def Core.Register {σ : Type} (env : Env) (c : Core σ) (w : World σ) (nu : RegisterEntity) :
    (UserEntity × Option Error) × World σ :=
  match env.GenerateFromPassword w.tick (bytesOf nu.Password) bcrypt.DefaultCost with
  | (_, some err) =>
    ((UserEntity.zero, some (fmt.Errorf "generatefrompassword: %w" [] err)),
      { w with tick := w.tick + 1 })
  | (hash, none) =>
    let now := env.Now (w.tick + 1)
    let usr := newUser nu hash now (env.New (w.tick + 2))
    match c.store.Create w.store usr with
    | (st, some err) =>
      ((UserEntity.zero, some (fmt.Errorf "create: %w" [] err)),
        { store := st, calls := w.calls ++ [StorerCall.Create usr], tick := w.tick + 3 })
    | (st, none) =>
      ((usr, none),
        { store := st, calls := w.calls ++ [StorerCall.Create usr], tick := w.tick + 3 })

/-- The method `Core.QueryByID`. -/
def Core.QueryByID {σ : Type} (c : Core σ) (w : World σ) (userID : UUID) :
    (UserEntity × Option Error) × World σ :=
  match c.store.QueryByID w.store userID with
  | (st, _, some err) =>
    ((UserEntity.zero, some (fmt.Errorf "query: userID[%s]: %w" [FmtArg.uuid userID] err)),
      { w with store := st, calls := w.calls ++ [StorerCall.QueryByID userID] })
  | (st, user, none) =>
    ((user, none),
      { w with store := st, calls := w.calls ++ [StorerCall.QueryByID userID] })

/-- The method `Core.QueryByEmail`. -/
def Core.QueryByEmail {σ : Type} (c : Core σ) (w : World σ) (email : MailAddress) :
    (UserEntity × Option Error) × World σ :=
  match c.store.QueryByEmail w.store email with
  | (st, _, some err) =>
    ((UserEntity.zero, some (fmt.Errorf "query: email[%s]: %w" [FmtArg.address email] err)),
      { w with store := st, calls := w.calls ++ [StorerCall.QueryByEmail email] })
  | (st, user, none) =>
    ((user, none),
      { w with store := st, calls := w.calls ++ [StorerCall.QueryByEmail email] })

/-- The method `Core.Authenticate`: look the user up by e-mail, then compare the stored
hash with the supplied password. -/
def Core.Authenticate {σ : Type} (env : Env) (c : Core σ) (w : World σ)
    (email : MailAddress) (password : String) : (UserEntity × Option Error) × World σ :=
  match c.QueryByEmail w email with
  | ((_, some err), w1) =>
    ((UserEntity.zero, some (fmt.Errorf "query: email[%s]: %w" [FmtArg.address email] err)),
      w1)
  | ((usr, none), w1) =>
    match env.CompareHashAndPassword usr.PasswordHash (bytesOf password) with
    | some _ =>
      ((UserEntity.zero,
        some (fmt.Errorf "comparehashandpassword: %w" [] ErrAuthenticationFailure)), w1)
    | none => ((usr, none), w1)

end user

/-! ## Package `property` -/

namespace property

/-- Modelled from the spec: the sentinel `property.ErrNotFound` is declared outside the
sources; it is the error of the not-found kind of the property package. -/
def ErrNotFound : Error := .new 11

/-- Modelled from the spec: the declaration of `Property` is not among the sources.  The
fields follow the data model of the specification: identifier, owning manager
identifier, name, three address level references, street, status, creation and update
timestamps. -/
structure Property where
  ID : UUID
  ManagerID : UUID
  Name : String
  AddressLevel1ID : String
  AddressLevel2ID : String
  AddressLevel3ID : String
  Street : String
  Status : String
  CreatedAt : Time
  UpdatedAt : Time
deriving DecidableEq, Repr

/-- The zero value `property.Property{}`. -/
def Property.zero : Property :=
  { ID := 0, ManagerID := 0, Name := "", AddressLevel1ID := "", AddressLevel2ID := "",
    AddressLevel3ID := "", Street := "", Status := "", CreatedAt := 0, UpdatedAt := 0 }

end property

/-- The textual form of identifiers (library `google/uuid`): `String` is the method
`UUID.String`, `Parse` the function `uuid.Parse`. -/
structure UUIDText where
  Parse : String → UUID × Option Error
  String : UUID → String

/-! ## The `properties` table and the statements run against it -/

namespace db

/-- The columns of the table `properties`, as the statements name them. -/
inductive Column
  | id
  | manager_id
  | name
  | address_level_1_id
  | address_level_2_id
  | address_level_3_id
  | street
  | status
  | created_at
  | updated_at
deriving DecidableEq, Repr

/-- A value held by a column or bound to a named parameter: `TEXT` or `TIMESTAMP`. -/
inductive Value
  | text (s : String)
  | timestamp (t : Time)
deriving DecidableEq, Repr

/-- Whether a value has the type of a column: the two timestamps are `TIMESTAMP`, every
other column is `TEXT`. -/
def Column.admits : Column → Value → Bool
  | .created_at, .timestamp _ => true
  | .updated_at, .timestamp _ => true
  | .created_at, .text _ => false
  | .updated_at, .text _ => false
  | _, .text _ => true
  | _, .timestamp _ => false

end db

namespace propertydb

open db

/-- Modelled from the spec: the struct `dbProperty` is declared outside the sources.  It
has one field for each column of the persisted schema `properties(id, manager_id, name,
address_level_1_id, address_level_2_id, address_level_3_id, street, status, created_at,
updated_at)`, tagged with the name of the column.  A row of the table is a value of the
same shape. -/
structure dbProperty where
  ID : String
  ManagerID : String
  Name : String
  AddressLevel1ID : String
  AddressLevel2ID : String
  AddressLevel3ID : String
  Street : String
  Status : String
  CreatedAt : Time
  UpdatedAt : Time
deriving DecidableEq, Repr

/-- The zero value `dbProperty{}`, as declared by `var row dbProperty`. -/
def dbProperty.zero : dbProperty :=
  { ID := "", ManagerID := "", Name := "", AddressLevel1ID := "", AddressLevel2ID := "",
    AddressLevel3ID := "", Street := "", Status := "", CreatedAt := 0, UpdatedAt := 0 }

/-- The field that carries the tag of a column. -/
def dbProperty.get (r : dbProperty) : Column → Value
  | .id => .text r.ID
  | .manager_id => .text r.ManagerID
  | .name => .text r.Name
  | .address_level_1_id => .text r.AddressLevel1ID
  | .address_level_2_id => .text r.AddressLevel2ID
  | .address_level_3_id => .text r.AddressLevel3ID
  | .street => .text r.Street
  | .status => .text r.Status
  | .created_at => .timestamp r.CreatedAt
  | .updated_at => .timestamp r.UpdatedAt

/-- Store a value in the field that carries the tag of a column; a value of the other
type is not stored. -/
def dbProperty.set (r : dbProperty) : Column → Value → dbProperty
  | .id, .text s => { r with ID := s }
  | .manager_id, .text s => { r with ManagerID := s }
  | .name, .text s => { r with Name := s }
  | .address_level_1_id, .text s => { r with AddressLevel1ID := s }
  | .address_level_2_id, .text s => { r with AddressLevel2ID := s }
  | .address_level_3_id, .text s => { r with AddressLevel3ID := s }
  | .street, .text s => { r with Street := s }
  | .status, .text s => { r with Status := s }
  | .created_at, .timestamp t => { r with CreatedAt := t }
  | .updated_at, .timestamp t => { r with UpdatedAt := t }
  | _, _ => r

/-- The named parameters a `dbProperty` offers to a statement: every tagged field. -/
def dbProperty.named (r : dbProperty) : List (Column × Value) :=
  [Column.id, Column.manager_id, Column.name, Column.address_level_1_id,
    Column.address_level_2_id, Column.address_level_3_id, Column.street, Column.status,
    Column.created_at, Column.updated_at].map (fun c => (c, r.get c))

end propertydb

namespace db

open propertydb

/-- Modelled from the spec: the sentinel `db.ErrDBNotFound` is declared outside the
sources; it is the distinguished not-found condition of the backing store client. -/
def ErrDBNotFound : Error := .new 21

/-- Modelled from the spec: the generic persistence failure of a statement that breaks
the primary key of the table. -/
def ErrDBDuplicatedEntry : Error := .new 22

/-- Modelled from the spec: the generic persistence failure of a statement one of whose
named parameters is missing from the data or has the wrong type for its column. -/
def ErrBind : Error := .new 23

/-- A `sqlx.ExtContext`: the connection pool or a transaction, as a handle. -/
structure ExtContext where
  handle : Nat
deriving DecidableEq, Repr

/-- A `transaction.Transaction`, as a handle. -/
structure Transaction where
  handle : Nat
deriving DecidableEq, Repr

/-- The statements the adapter executes without reading rows back.

* `insert columns values` is `INSERT INTO properties (columns) VALUES (:values)`;
* `update set whereColumn whereParam` is
  `UPDATE properties SET column = :param, ... WHERE whereColumn = :whereParam`;
* `delete whereColumn whereParam` is
  `DELETE FROM properties WHERE whereColumn = :whereParam`. -/
inductive ExecStatement
  | insert (columns : List Column) (values : List Column)
  | update (set : List (Column × Column)) (whereColumn whereParam : Column)
  | delete (whereColumn whereParam : Column)
deriving DecidableEq, Repr

/-- The statement `SELECT columns FROM properties WHERE whereColumn = :whereParam`. -/
structure QueryStatement where
  columns : List Column
  whereColumn : Column
  whereParam : Column
deriving DecidableEq, Repr

/-- The backing store: the rows of `properties` in the order the store returns them,
and for each statement still to come the failure (connectivity, timeout and the like)
the store answers it with, if any; a statement past the end of the list meets none. -/
structure Database where
  properties : List dbProperty
  faults : List (Option Error)
deriving DecidableEq, Repr

/-- The failure the store answers the next statement with. -/
def Database.fault (d : Database) : Option Error :=
  match d.faults with
  | some e :: _ => some e
  | _ => none

/-- The store once the next statement has been answered. -/
def Database.next (d : Database) : Database :=
  { d with faults := d.faults.tail }

/-- The value bound to a named parameter, `none` if the data has no such name. -/
def lookup (data : List (Column × Value)) (param : Column) : Option Value :=
  match data with
  | [] => none
  | (c, v) :: rest => if c = param then some v else lookup rest param

/-- Bind each `column = :param` pair of a statement; `none` if a parameter is missing
or has the wrong type for its column. -/
def bindNamed (data : List (Column × Value)) :
    List (Column × Column) → Option (List (Column × Value))
  | [] => some []
  | (c, p) :: rest =>
    match lookup data p, bindNamed data rest with
    | some v, some bound => if c.admits v then some ((c, v) :: bound) else none
    | _, _ => none

/-- Store the bound values in a row, left to right. -/
def assign (r : dbProperty) : List (Column × Value) → dbProperty
  | [] => r
  | (c, v) :: rest => assign (r.set c v) rest

/-- Copy the selected columns of a row into the destination struct, as `StructScan`
does; a field whose column is not selected keeps what the destination held. -/
def scan (dest row : dbProperty) : List Column → dbProperty
  | [] => dest
  | c :: rest => scan (dest.set c (row.get c)) row rest

/-- Modelled from the spec: the helper `db.NamedExecContext` is declared outside the
sources.  It executes a parameterized statement against the backing store and reports
the failure of the store, if any.  `INSERT` adds one row (columns the statement does not
name keep the zero value) unless a row with the same `id` exists, `UPDATE` rewrites the
named columns of every row the condition selects, `DELETE` removes those rows. -/
def NamedExecContext (_log : Logger) (_ec : ExtContext) (d : Database)
    (query : ExecStatement) (data : List (Column × Value)) : Database × Option Error :=
  match d.fault with
  | some err => (d.next, some err)
  | none =>
    match query with
    | .insert columns values =>
      if columns.length = values.length then
        match bindNamed data (columns.zip values) with
        | none => (d.next, some ErrBind)
        | some bound =>
          let row := assign dbProperty.zero bound
          if d.properties.any (fun r => decide (r.ID = row.ID)) then
            (d.next, some ErrDBDuplicatedEntry)
          else
            ({ d.next with properties := d.properties ++ [row] }, none)
      else (d.next, some ErrBind)
    | .update set whereColumn whereParam =>
      match lookup data whereParam, bindNamed data set with
      | some key, some bound =>
        ({ d.next with
            properties := d.properties.map
              (fun r => if r.get whereColumn = key then assign r bound else r) }, none)
      | _, _ => (d.next, some ErrBind)
    | .delete whereColumn whereParam =>
      match lookup data whereParam with
      | some key =>
        ({ d.next with
            properties := d.properties.filter
              (fun r => !decide (r.get whereColumn = key)) }, none)
      | none => (d.next, some ErrBind)

/-- Modelled from the spec: the helper `db.NamedQueryStruct` is declared outside the
sources.  It executes a parameterized query, reports the failure of the store if any,
signals `ErrDBNotFound` when no row matches, and otherwise maps the first matching row
onto the destination struct. -/
def NamedQueryStruct (_log : Logger) (_ec : ExtContext) (d : Database)
    (query : QueryStatement) (data : List (Column × Value)) (dest : dbProperty) :
    Database × dbProperty × Option Error :=
  match d.fault with
  | some err => (d.next, dest, some err)
  | none =>
    match lookup data query.whereParam with
    | none => (d.next, dest, some ErrBind)
    | some key =>
      match d.properties.find? (fun r => decide (r.get query.whereColumn = key)) with
      | none => (d.next, dest, some ErrDBNotFound)
      | some row => (d.next, scan dest row query.columns, none)

end db

/-! ## Package `propertydb` -/

namespace propertydb

open db property

/-- Modelled from the spec: the converter `toDBProperty` is declared outside the
sources.  It maps the domain value to the row shape: both identifiers in their textual
form, every other attribute as it is. -/
def toDBProperty (t : UUIDText) (core : Property) : dbProperty :=
  { ID := t.String core.ID,
    ManagerID := t.String core.ManagerID,
    Name := core.Name,
    AddressLevel1ID := core.AddressLevel1ID,
    AddressLevel2ID := core.AddressLevel2ID,
    AddressLevel3ID := core.AddressLevel3ID,
    Street := core.Street,
    Status := core.Status,
    CreatedAt := core.CreatedAt,
    UpdatedAt := core.UpdatedAt }

/-- Modelled from the spec: the converter `toCoreProperty` is declared outside the
sources.  It maps a row to the domain value and fails with a translation error if a
stored identifier is malformed. -/
def toCoreProperty (t : UUIDText) (row : dbProperty) : Property × Option Error :=
  match t.Parse row.ID with
  | (_, some err) => (Property.zero, some (fmt.Errorf "parse id: %w" [] err))
  | (id, none) =>
    match t.Parse row.ManagerID with
    | (_, some err) => (Property.zero, some (fmt.Errorf "parse managerID: %w" [] err))
    | (managerID, none) =>
      ({ ID := id,
         ManagerID := managerID,
         Name := row.Name,
         AddressLevel1ID := row.AddressLevel1ID,
         AddressLevel2ID := row.AddressLevel2ID,
         AddressLevel3ID := row.AddressLevel3ID,
         Street := row.Street,
         Status := row.Status,
         CreatedAt := row.CreatedAt,
         UpdatedAt := row.UpdatedAt }, none)

/-- The struct `Store`. -/
structure Store where
  log : Logger
  db : ExtContext
deriving DecidableEq, Repr

/-- The constructor `NewStore`. -/
def NewStore (log : Logger) (db : ExtContext) : Store :=
  { log := log, db := db }

/-- The method `Store.Create`. -/
def Store.Create (t : UUIDText) (s : Store) (d : Database) (core : Property) :
    Database × Option Error :=
  let q := ExecStatement.insert
    [.id, .manager_id, .name, .address_level_1_id, .address_level_2_id,
      .address_level_3_id, .street, .status, .created_at, .updated_at]
    [.id, .manager_id, .name, .address_level_1_id, .address_level_2_id,
      .address_level_3_id, .street, .status, .created_at, .updated_at]
  match NamedExecContext s.log s.db d q (toDBProperty t core).named with
  | (d1, some err) => (d1, some (fmt.Errorf "namedexeccontext: %w" [] err))
  | (d1, none) => (d1, none)

/-- The method `Store.Update`. -/
def Store.Update (t : UUIDText) (s : Store) (d : Database) (core : Property) :
    Database × Option Error :=
  let q := ExecStatement.update
    [(.name, .name),
     (.address_level_1_id, .address_level_1_id),
     (.address_level_2_id, .address_level_2_id),
     (.address_level_3_id, .address_level_3_id),
     (.street, .street),
     (.status, .status),
     (.updated_at, .updated_at)]
    .id .id
  match NamedExecContext s.log s.db d q (toDBProperty t core).named with
  | (d1, some err) => (d1, some (fmt.Errorf "namedexeccontext: %w" [] err))
  | (d1, none) => (d1, none)

/-- The method `Store.Delete`. -/
def Store.Delete (t : UUIDText) (s : Store) (d : Database) (core : Property) :
    Database × Option Error :=
  let data := [(Column.id, Value.text (t.String core.ID))]
  let q := ExecStatement.delete .id .id
  match NamedExecContext s.log s.db d q data with
  | (d1, some err) => (d1, some (fmt.Errorf "namedexeccontext: %w" [] err))
  | (d1, none) => (d1, none)

/-- The method `Store.QueryByID`.  The column list of the query is the one of the
source: `id, manager_id, address_level_1_id, address_level_2_id, address_level_3_id,
street, status, created_at, updated_at`. -/
def Store.QueryByID (t : UUIDText) (s : Store) (d : Database) (id : UUID) :
    Database × Property × Option Error :=
  let data := [(Column.id, Value.text (t.String id))]
  let q : QueryStatement :=
    { columns := [.id, .manager_id, .address_level_1_id, .address_level_2_id,
        .address_level_3_id, .street, .status, .created_at, .updated_at],
      whereColumn := .id,
      whereParam := .id }
  match NamedQueryStruct s.log s.db d q data dbProperty.zero with
  | (d1, _, some err) =>
    if errors.Is (some err) (some ErrDBNotFound) then
      (d1, Property.zero, some (fmt.Errorf "namedquerystruct: %w" [] property.ErrNotFound))
    else
      (d1, Property.zero, some (fmt.Errorf "namedquerystruct: %w" [] err))
  | (d1, row, none) =>
    match toCoreProperty t row with
    | (_, some err) => (d1, Property.zero, some err)
    | (prprty, none) => (d1, prprty, none)

/-- The heap of `Store` values: the value at address `a` is the entry at index `a`. -/
abbrev Heap := List Store

/-- The method `Store.ExecuteUnderTransaction` on the receiver at address `s`.  The
helper `db.GetExtContext`, declared outside the sources, is the parameter
`GetExtContext`.  The assignment to `s` rebinds the local receiver variable to a newly
allocated `Store`; the result is the heap after the call, the address returned (`none`
for the nil interface) and the error.  Reading a field through an address that holds no
`Store` is the run-time panic `none`. -/
def Store.ExecuteUnderTransaction (GetExtContext : Transaction → ExtContext × Option Error)
    (heap : Heap) (s : Nat) (tx : Transaction) : Option (Heap × Option Nat × Option Error) :=
  match GetExtContext tx with
  | (_, some err) => some (heap, none, some err)
  | (ec, none) =>
    match heap[s]? with
    | none => none
    | some self => some (heap ++ [{ log := self.log, db := ec }], some heap.length, none)

end propertydb

/-! ## Concrete collaborators

Instances of the parameters, on which the functions above can be run. -/

namespace sample

open user

/-- A `Storer` that keeps the users in a list, newest first.  `Create` refuses an e-mail
that is already present with `ErrUniqueEmail`; the queries answer `ErrNotFound` when no
user matches. -/
def memory : Storer (List UserEntity) where
  Create := fun s usr =>
    if s.any (fun u => decide (u.Email = usr.Email)) then (s, some ErrUniqueEmail)
    else (usr :: s, none)
  Update := fun s usr =>
    (s.map (fun u => if u.ID = usr.ID then usr else u), none)
  Delete := fun s usr => (s.filter (fun u => !decide (u.ID = usr.ID)), none)
  QueryByID := fun s userID =>
    match s.find? (fun u => decide (u.ID = userID)) with
    | some u => (s, u, none)
    | none => (s, UserEntity.zero, some ErrNotFound)
  QueryByIDs := fun s userID => (s, s.filter (fun u => userID.contains u.ID), none)
  QueryByEmail := fun s email =>
    match s.find? (fun u => decide (u.Email = email)) with
    | some u => (s, u, none)
    | none => (s, UserEntity.zero, some ErrNotFound)

/-- The error a hashing primitive reports for a password longer than 72 bytes. -/
def ErrPasswordTooLong : Error := .new 31

/-- The error a hashing primitive reports when hash and password do not match. -/
def ErrMismatchedHashAndPassword : Error := .new 32

/-- A stand-in for the libraries: the hash of a password is the password behind a salt
(the draw) and the cost, passwords longer than 72 bytes are refused, the clock advances
by one thousand for each draw, and the identifier drawn is the draw plus one. -/
def env : Env where
  GenerateFromPassword := fun tick password cost =>
    if 72 < password.length then ([], some ErrPasswordTooLong)
    else (tick :: cost.toNat :: password, none)
  CompareHashAndPassword := fun hash password =>
    if hash.drop 2 = password then none else some ErrMismatchedHashAndPassword
  Now := fun tick => 1000 * (tick : Int)
  New := fun tick => Fin.ofNat (tick + 1)

/-- A core over the list-backed `Storer`. -/
def core : Core (List UserEntity) := NewCore 0 memory

/-- The world before any call: no users, no invocations, no draws. -/
def world : World (List UserEntity) := { store := [], calls := [], tick := 0 }

/-- A registration request. -/
def alice : RegisterEntity :=
  { Name := "A", Email := { Name := "", Address := "a@x.com" }, Roles := ["ADMIN"],
    Department := "IT", Password := "secret1" }

/-- A registration request whose password has 73 bytes. -/
def bob : RegisterEntity :=
  { Name := "B", Email := { Name := "", Address := "b@x.com" }, Roles := ["USER"],
    Department := "IT",
    Password := "0123456789012345678901234567890123456789012345678901234567890123456789abc" }

open db property propertydb

/-- The hexadecimal digit of a number below sixteen. -/
def hexDigit (n : Nat) : Char :=
  "0123456789abcdef".data.getD n '0'

/-- The number a hexadecimal digit stands for, in either case. -/
def hexValue (c : Char) : Option Nat :=
  let i := "0123456789abcdef".data.indexOf c.toLower
  if i < 16 then some i else none

/-- The error a parser reports for a malformed identifier. -/
def ErrInvalidUUID : Error := .new 33

/-- The canonical text of an identifier: thirty-two hexadecimal digits, most significant
first, in groups of 8, 4, 4, 4 and 12 separated by hyphens. -/
def canonical (u : UUID) : String :=
  let digits := (List.range 32).map (fun i => hexDigit (u.val / 16 ^ (31 - i) % 16))
  String.mk (digits.take 8 ++ '-' :: (digits.drop 8).take 4 ++ '-' :: (digits.drop 12).take 4
    ++ '-' :: (digits.drop 16).take 4 ++ '-' :: digits.drop 20)

/-- Read the canonical text back; anything else is malformed. -/
def parseCanonical (s : String) : UUID × Option Error :=
  let cs := s.data
  if cs.length = 36 ∧ cs.getD 8 ' ' = '-' ∧ cs.getD 13 ' ' = '-' ∧ cs.getD 18 ' ' = '-'
      ∧ cs.getD 23 ' ' = '-' then
    match ((cs.take 8 ++ (cs.drop 9).take 4 ++ (cs.drop 14).take 4 ++ (cs.drop 19).take 4
        ++ cs.drop 24).map hexValue).allSome with
    | some values => (Fin.ofNat (values.foldl (fun acc v => 16 * acc + v) 0), none)
    | none => (0, some ErrInvalidUUID)
  else (0, some ErrInvalidUUID)

/-- A textual form of identifiers: the canonical one. -/
def text : UUIDText where
  Parse := parseCanonical
  String := canonical

/-- An adapter on the connection pool. -/
def store : Store := NewStore 0 { handle := 0 }

/-- A backing store with no rows that answers every statement. -/
def empty : Database := { properties := [], faults := [] }

/-- A property. -/
def house : Property :=
  { ID := 1, ManagerID := 2, Name := "A", AddressLevel1ID := "10", AddressLevel2ID := "20",
    AddressLevel3ID := "30", Street := "Main", Status := "ACTIVE", CreatedAt := 100,
    UpdatedAt := 100 }

/-- The same property after an edit that also carries another manager and another
creation time. -/
def houseEdited : Property :=
  { ID := 1, ManagerID := 9, Name := "B", AddressLevel1ID := "11", AddressLevel2ID := "21",
    AddressLevel3ID := "31", Street := "Side", Status := "CLOSED", CreatedAt := 555,
    UpdatedAt := 200 }

/-- An adaptation of transaction handles: handles below one hundred are transactions of
the driver and adapt to the context of the same handle, the others do not adapt. -/
def getExtContext (tx : Transaction) : ExtContext × Option Error :=
  if tx.handle < 100 then ({ handle := tx.handle }, none)
  else ({ handle := 0 }, some (.new 34))

end sample

/-! # Theorems -/

/-! ## Error chains -/

theorem Error.Is_refl (e : Error) : e.Is e = true := by
  cases e <;> simp [Error.Is]

theorem Error.Is_wrap_new (f : String) (as : List FmtArg) (e : Error) (a : Nat) :
    (Error.wrap f as e).Is (Error.new a) = e.Is (Error.new a) := by
  simp [Error.Is]

theorem Error.Is_wrap_inner (f : String) (as : List FmtArg) (e : Error) :
    (Error.wrap f as e).Is e = true := by
  simp [Error.Is, Error.Is_refl]

theorem Error.Is_wrap_of_Is (f : String) (as : List FmtArg) (e t : Error)
    (h : e.Is t = true) : (Error.wrap f as e).Is t = true := by
  simp [Error.Is, h]

/-! ## The user core -/

namespace user

/-- C1, counterexample: over the list-backed `Storer` with no users the lookup of an
unknown e-mail fails with `ErrNotFound`, and the error `Authenticate` returns is not of
the kind `ErrAuthenticationFailure` and is of the not-found kind. -/
theorem authenticate_unknown_email_keeps_not_found :
    (sample.memory.QueryByEmail sample.world.store sample.alice.Email).2.2 = some ErrNotFound
    ∧ errors.Is (Core.Authenticate sample.env sample.core sample.world
          sample.alice.Email "secret1").1.2 (some ErrAuthenticationFailure) = false
    ∧ errors.Is (Core.Authenticate sample.env sample.core sample.world
          sample.alice.Email "secret1").1.2 (some ErrNotFound) = true := by
  decide

/-- C1, as amended: if the lookup by e-mail of the `Storer` fails with error `e`, then
`Authenticate` returns the zero-value `UserEntity` and an error that wraps `e`, and that
error is of the kind of a sentinel exactly when `e` is; so it is of the not-found kind
for an unknown e-mail and of the kind `ErrAuthenticationFailure` only if `e` is. -/
theorem authenticate_lookup_failure {σ : Type} (env : Env) (c : Core σ) (w : World σ)
    (email : MailAddress) (password : String) (e : Error)
    (h : (c.store.QueryByEmail w.store email).2.2 = some e) :
    (Core.Authenticate env c w email password).1.1 = UserEntity.zero
    ∧ errors.Is (Core.Authenticate env c w email password).1.2 (some e) = true
    ∧ ∀ a : Nat, errors.Is (Core.Authenticate env c w email password).1.2
          (some (Error.new a)) = errors.Is (some e) (some (Error.new a)) := by
  simp only [Core.Authenticate, Core.QueryByEmail]
  generalize c.store.QueryByEmail w.store email = r at h
  obtain ⟨st, u, oe⟩ := r
  simp only at h
  subst h
  simp [errors.Is, fmt.Errorf, Error.Is, Error.Is_refl]

/-- Witness of `authenticate_lookup_failure`: the unknown e-mail over the list-backed
`Storer` with no users. -/
theorem authenticate_lookup_failure_witness :
    (sample.memory.QueryByEmail sample.world.store sample.alice.Email).2.2 = some ErrNotFound
    ∧ (Core.Authenticate sample.env sample.core sample.world
          sample.alice.Email "secret1").1.1 = UserEntity.zero
    ∧ errors.Is (Core.Authenticate sample.env sample.core sample.world
          sample.alice.Email "secret1").1.2 (some ErrNotFound) = true
    ∧ ∀ a : Nat, errors.Is (Core.Authenticate sample.env sample.core sample.world
          sample.alice.Email "secret1").1.2 (some (Error.new a))
        = errors.Is (some ErrNotFound) (some (Error.new a)) :=
  ⟨by decide,
    authenticate_lookup_failure sample.env sample.core sample.world sample.alice.Email
      "secret1" ErrNotFound (by decide)⟩

/-- C2: if the lookup by e-mail succeeds with a user `u` and the comparison of
`u.PasswordHash` with the supplied password fails, with whatever error, then
`Authenticate` returns the zero-value `UserEntity` and the error
`comparehashandpassword: ErrAuthenticationFailure`, which is of the kind
`ErrAuthenticationFailure`. -/
theorem authenticate_wrong_password {σ : Type} (env : Env) (c : Core σ) (w : World σ)
    (email : MailAddress) (password : String) (st : σ) (u : UserEntity) (ce : Error)
    (hq : c.store.QueryByEmail w.store email = (st, u, none))
    (hc : env.CompareHashAndPassword u.PasswordHash (bytesOf password) = some ce) :
    (Core.Authenticate env c w email password).1
        = (UserEntity.zero,
            some (fmt.Errorf "comparehashandpassword: %w" [] ErrAuthenticationFailure))
    ∧ errors.Is (Core.Authenticate env c w email password).1.2
        (some ErrAuthenticationFailure) = true := by
  simp [Core.Authenticate, Core.QueryByEmail, hq, hc, errors.Is, fmt.Errorf, Error.Is,
    ErrAuthenticationFailure]

/-- Witness of `authenticate_wrong_password`: the registered user with the password
`wrong`. -/
theorem authenticate_wrong_password_witness :
    sample.memory.QueryByEmail
        (Core.Register sample.env sample.core sample.world sample.alice).2.store
        sample.alice.Email
      = ((Core.Register sample.env sample.core sample.world sample.alice).2.store,
          (Core.Register sample.env sample.core sample.world sample.alice).1.1, none)
    ∧ sample.env.CompareHashAndPassword
        (Core.Register sample.env sample.core sample.world sample.alice).1.1.PasswordHash
        (bytesOf "wrong") = some sample.ErrMismatchedHashAndPassword
    ∧ (Core.Authenticate sample.env sample.core
          (Core.Register sample.env sample.core sample.world sample.alice).2
          sample.alice.Email "wrong").1
        = (UserEntity.zero,
            some (fmt.Errorf "comparehashandpassword: %w" [] ErrAuthenticationFailure))
    ∧ errors.Is (Core.Authenticate sample.env sample.core
          (Core.Register sample.env sample.core sample.world sample.alice).2
          sample.alice.Email "wrong").1.2 (some ErrAuthenticationFailure) = true :=
  ⟨by decide, by decide,
    authenticate_wrong_password sample.env sample.core
      (Core.Register sample.env sample.core sample.world sample.alice).2
      sample.alice.Email "wrong"
      (Core.Register sample.env sample.core sample.world sample.alice).2.store
      (Core.Register sample.env sample.core sample.world sample.alice).1.1
      sample.ErrMismatchedHashAndPassword (by decide) (by decide)⟩

/-- C3: over a `Storer` whose `QueryByEmail` returns exactly the entity it was given in
a successful `Create`, and a hashing primitive whose comparison accepts every hash it
generated together with the password hashed, if `Register` succeeds with user `u` then
`Authenticate` on the resulting world with the registered e-mail and password succeeds
with no error and returns the same `u`. -/
theorem register_then_authenticate {σ : Type} (env : Env) (c : Core σ) (w w1 : World σ)
    (nu : RegisterEntity) (u : UserEntity)
    (hstore : ∀ (s s1 : σ) (usr : UserEntity), c.store.Create s usr = (s1, none) →
      (c.store.QueryByEmail s1 usr.Email).2 = (usr, none))
    (hhash : ∀ (tick : Nat) (password hash : Bytes) (cost : Int),
      env.GenerateFromPassword tick password cost = (hash, none) →
      env.CompareHashAndPassword hash password = none)
    (hreg : Core.Register env c w nu = ((u, none), w1)) :
    (Core.Authenticate env c w1 nu.Email nu.Password).1 = (u, none) := by
  simp only [Core.Register] at hreg
  cases hg : env.GenerateFromPassword w.tick (bytesOf nu.Password) bcrypt.DefaultCost with
  | mk hash gerr =>
    rw [hg] at hreg
    cases gerr with
    | some e => simp at hreg
    | none =>
      simp only at hreg
      cases hc : c.store.Create w.store
          (newUser nu hash (env.Now (w.tick + 1)) (env.New (w.tick + 2))) with
      | mk st cerr =>
        rw [hc] at hreg
        cases cerr with
        | some e => simp at hreg
        | none =>
          simp only [Prod.mk.injEq] at hreg
          obtain ⟨⟨hu, -⟩, hw⟩ := hreg
          have hq := hstore _ _ _ hc
          have hcmp := hhash _ _ _ _ hg
          subst hw
          subst hu
          simp only [Core.Authenticate, Core.QueryByEmail]
          have hmail : (newUser nu hash (env.Now (w.tick + 1)) (env.New (w.tick + 2))).Email
              = nu.Email := rfl
          rw [hmail] at hq
          generalize c.store.QueryByEmail st nu.Email = r at hq
          obtain ⟨st2, u2, oe⟩ := r
          simp only [Prod.mk.injEq] at hq
          obtain ⟨hu2, hoe⟩ := hq
          subst hu2
          subst hoe
          have hpw : (newUser nu hash (env.Now (w.tick + 1)) (env.New (w.tick + 2))).PasswordHash
              = hash := rfl
          simp [hpw, hcmp]

end user

namespace sample

open user

/-- The list-backed `Storer` returns from `QueryByEmail` the entity given to `Create`. -/
theorem memory_query_after_create (s s1 : List UserEntity) (usr : UserEntity)
    (h : memory.Create s usr = (s1, none)) :
    (memory.QueryByEmail s1 usr.Email).2 = (usr, none) := by
  simp only [memory] at h ⊢
  split at h
  · simp at h
  · simp only [Prod.mk.injEq, and_true] at h
    subst h
    simp [List.find?]

/-- The stand-in comparison accepts every generated hash with the password hashed. -/
theorem env_compare_generated (tick : Nat) (password hash : Bytes) (cost : Int)
    (h : env.GenerateFromPassword tick password cost = (hash, none)) :
    env.CompareHashAndPassword hash password = none := by
  simp only [env] at h ⊢
  split at h
  · simp at h
  · simp only [Prod.mk.injEq, and_true] at h
    subst h
    simp

end sample

namespace user

/-- Witness of `register_then_authenticate`: the list-backed `Storer`, the stand-in
hashing primitive and the registration of `alice` in the world with no users. -/
theorem register_then_authenticate_witness :
    (∀ (s s1 : List UserEntity) (usr : UserEntity),
        sample.core.store.Create s usr = (s1, none) →
        (sample.core.store.QueryByEmail s1 usr.Email).2 = (usr, none))
    ∧ (∀ (tick : Nat) (password hash : Bytes) (cost : Int),
        sample.env.GenerateFromPassword tick password cost = (hash, none) →
        sample.env.CompareHashAndPassword hash password = none)
    ∧ (Core.Register sample.env sample.core sample.world sample.alice).1.2 = none
    ∧ (Core.Authenticate sample.env sample.core
          (Core.Register sample.env sample.core sample.world sample.alice).2
          sample.alice.Email sample.alice.Password).1
        = ((Core.Register sample.env sample.core sample.world sample.alice).1.1, none) :=
  ⟨sample.memory_query_after_create, sample.env_compare_generated, by decide,
    register_then_authenticate sample.env sample.core sample.world
      (Core.Register sample.env sample.core sample.world sample.alice).2 sample.alice
      (Core.Register sample.env sample.core sample.world sample.alice).1.1
      sample.memory_query_after_create sample.env_compare_generated rfl⟩

/-- C4: when hashing the password at the default cost succeeds with `hash` and
`Storer.Create` accepts the entity built from it, `Register` returns without error a
user that carries the name, e-mail, roles and department of the request, is enabled,
has `hash` as password hash, the freshly drawn identifier as ID and the one clock
reading of the call as both DateCreated and DateUpdated; `Storer.Create` is the only
`Storer` method invoked, once, with exactly the returned user, and one hash, one clock
reading and one identifier were drawn. -/
theorem register_builds_user {σ : Type} (env : Env) (c : Core σ) (w : World σ)
    (nu : RegisterEntity) (hash : Bytes)
    (hhash : env.GenerateFromPassword w.tick (bytesOf nu.Password) bcrypt.DefaultCost
      = (hash, none))
    (hcreate : (c.store.Create w.store
      (newUser nu hash (env.Now (w.tick + 1)) (env.New (w.tick + 2)))).2 = none) :
    (Core.Register env c w nu).1.2 = none
    ∧ (Core.Register env c w nu).1.1.Name = nu.Name
    ∧ (Core.Register env c w nu).1.1.Email = nu.Email
    ∧ (Core.Register env c w nu).1.1.Roles = nu.Roles
    ∧ (Core.Register env c w nu).1.1.Department = nu.Department
    ∧ (Core.Register env c w nu).1.1.Enabled = true
    ∧ (Core.Register env c w nu).1.1.PasswordHash = hash
    ∧ (Core.Register env c w nu).1.1.ID = env.New (w.tick + 2)
    ∧ (Core.Register env c w nu).1.1.DateCreated = env.Now (w.tick + 1)
    ∧ (Core.Register env c w nu).1.1.DateUpdated = env.Now (w.tick + 1)
    ∧ (Core.Register env c w nu).2.calls
        = w.calls ++ [StorerCall.Create (Core.Register env c w nu).1.1]
    ∧ (Core.Register env c w nu).2.store
        = (c.store.Create w.store (Core.Register env c w nu).1.1).1
    ∧ (Core.Register env c w nu).2.tick = w.tick + 3 := by
  simp only [Core.Register, hhash]
  generalize hr : c.store.Create w.store
    (newUser nu hash (env.Now (w.tick + 1)) (env.New (w.tick + 2))) = r at hcreate
  obtain ⟨st, cerr⟩ := r
  simp only at hcreate
  subst hcreate
  simp only [hr]
  simp [newUser]

/-- Witness of `register_builds_user`: the registration of `alice` in the world with
no users. -/
theorem register_builds_user_witness :
    sample.env.GenerateFromPassword sample.world.tick (bytesOf sample.alice.Password)
        bcrypt.DefaultCost = ([0, 10, 115, 101, 99, 114, 101, 116, 49], none)
    ∧ (sample.core.store.Create sample.world.store
        (newUser sample.alice [0, 10, 115, 101, 99, 114, 101, 116, 49]
          (sample.env.Now (sample.world.tick + 1))
          (sample.env.New (sample.world.tick + 2)))).2 = none
    ∧ (Core.Register sample.env sample.core sample.world sample.alice).1.1.Enabled = true
    ∧ (Core.Register sample.env sample.core sample.world sample.alice).1.1.ID = 3
    ∧ (Core.Register sample.env sample.core sample.world sample.alice).1.1.DateCreated
        = 1000 :=
  have h := register_builds_user sample.env sample.core sample.world sample.alice
    [0, 10, 115, 101, 99, 114, 101, 116, 49] (by decide) (by decide)
  ⟨by decide, by decide, h.2.2.2.2.2.1, h.2.2.2.2.2.2.2.1, h.2.2.2.2.2.2.2.2.1⟩

/-- C5: `Register` fails exactly when hashing fails or, hashing having succeeded,
`Storer.Create` fails.  When hashing fails with `e`, the user returned is the zero value,
the error is `generatefrompassword:` wrapping `e`, and no `Storer` method is invoked (the
invocations and the state behind the `Storer` are as before).  When `Storer.Create`
fails with `e`, the user returned is the zero value and the error is `create:` wrapping
`e`, so it is of the kind of every error `e` is of the kind of. -/
theorem register_failure {σ : Type} (env : Env) (c : Core σ) (w : World σ)
    (nu : RegisterEntity) :
    ((Core.Register env c w nu).1.2 ≠ none ↔
      (env.GenerateFromPassword w.tick (bytesOf nu.Password) bcrypt.DefaultCost).2 ≠ none
      ∨ ((env.GenerateFromPassword w.tick (bytesOf nu.Password) bcrypt.DefaultCost).2 = none
        ∧ (c.store.Create w.store
            (newUser nu
              (env.GenerateFromPassword w.tick (bytesOf nu.Password) bcrypt.DefaultCost).1
              (env.Now (w.tick + 1)) (env.New (w.tick + 2)))).2 ≠ none))
    ∧ (∀ e : Error,
        (env.GenerateFromPassword w.tick (bytesOf nu.Password) bcrypt.DefaultCost).2 = some e →
        (Core.Register env c w nu).1.1 = UserEntity.zero
        ∧ (Core.Register env c w nu).1.2
            = some (fmt.Errorf "generatefrompassword: %w" [] e)
        ∧ errors.Is (Core.Register env c w nu).1.2 (some e) = true
        ∧ (Core.Register env c w nu).2.calls = w.calls
        ∧ (Core.Register env c w nu).2.store = w.store)
    ∧ (∀ (hash : Bytes) (e : Error),
        env.GenerateFromPassword w.tick (bytesOf nu.Password) bcrypt.DefaultCost
          = (hash, none) →
        (c.store.Create w.store
          (newUser nu hash (env.Now (w.tick + 1)) (env.New (w.tick + 2)))).2 = some e →
        (Core.Register env c w nu).1.1 = UserEntity.zero
        ∧ (Core.Register env c w nu).1.2 = some (fmt.Errorf "create: %w" [] e)
        ∧ errors.Is (Core.Register env c w nu).1.2 (some e) = true
        ∧ ∀ t : Error, errors.Is (some e) (some t) = true →
            errors.Is (Core.Register env c w nu).1.2 (some t) = true) := by
  simp only [Core.Register]
  generalize env.GenerateFromPassword w.tick (bytesOf nu.Password) bcrypt.DefaultCost = g
  obtain ⟨hash, gerr⟩ := g
  cases gerr with
  | some ge =>
    simp [errors.Is, fmt.Errorf, Error.Is_wrap_inner]
  | none =>
    simp only
    generalize hr : c.store.Create w.store
      (newUser nu hash (env.Now (w.tick + 1)) (env.New (w.tick + 2))) = r
    obtain ⟨st, cerr⟩ := r
    cases cerr with
    | some ce =>
      refine ⟨by simp, by simp, ?_⟩
      intro hash2 e hg hc
      simp only [Prod.mk.injEq, and_true] at hg
      subst hg
      rw [hr] at hc
      simp only [Option.some.injEq] at hc
      subst hc
      refine ⟨rfl, rfl, ?_, ?_⟩
      · simp [errors.Is, fmt.Errorf, Error.Is_wrap_inner]
      · intro t ht
        simp only [errors.Is] at ht ⊢
        exact Error.Is_wrap_of_Is _ _ _ _ ht
    | none =>
      refine ⟨by simp, by simp, ?_⟩
      intro hash2 e hg hc
      simp only [Prod.mk.injEq, and_true] at hg
      subst hg
      rw [hr] at hc
      simp at hc

/-- Witness of `register_failure`: a password of 73 bytes, which the stand-in hashing
primitive refuses, and a second registration of `alice`, which the list-backed `Storer`
refuses with `ErrUniqueEmail`. -/
theorem register_failure_witness :
    ((sample.env.GenerateFromPassword sample.world.tick (bytesOf sample.bob.Password)
        bcrypt.DefaultCost).2 = some sample.ErrPasswordTooLong
      ∧ (Core.Register sample.env sample.core sample.world sample.bob).1.2
          = some (fmt.Errorf "generatefrompassword: %w" [] sample.ErrPasswordTooLong)
      ∧ (Core.Register sample.env sample.core sample.world sample.bob).2.calls = [])
    ∧ (sample.env.GenerateFromPassword
          (Core.Register sample.env sample.core sample.world sample.alice).2.tick
          (bytesOf sample.alice.Password) bcrypt.DefaultCost
        = ([3, 10, 115, 101, 99, 114, 101, 116, 49], none)
      ∧ (sample.core.store.Create
          (Core.Register sample.env sample.core sample.world sample.alice).2.store
          (newUser sample.alice [3, 10, 115, 101, 99, 114, 101, 116, 49]
            (sample.env.Now
              ((Core.Register sample.env sample.core sample.world sample.alice).2.tick + 1))
            (sample.env.New
              ((Core.Register sample.env sample.core sample.world sample.alice).2.tick + 2)))).2
        = some ErrUniqueEmail
      ∧ errors.Is (Core.Register sample.env sample.core
          (Core.Register sample.env sample.core sample.world sample.alice).2
          sample.alice).1.2 (some ErrUniqueEmail) = true) :=
  have hb := (register_failure sample.env sample.core sample.world sample.bob).2.1
    sample.ErrPasswordTooLong (by decide)
  have ha := (register_failure sample.env sample.core
    (Core.Register sample.env sample.core sample.world sample.alice).2 sample.alice).2.2
    [3, 10, 115, 101, 99, 114, 101, 116, 49] ErrUniqueEmail (by decide) (by decide)
  ⟨⟨by decide, hb.2.1, hb.2.2.2.1⟩, ⟨by decide, by decide, ha.2.2.1⟩⟩

/-- C6: `QueryByID` and `QueryByEmail` delegate to the `Storer`.  If the method of the
`Storer` succeeds with `u`, the core returns exactly `u` and a nil error; if it fails
with `e`, the core returns the zero-value `UserEntity` and an error that names the key
and wraps `e`, so it is of the kind of every error `e` is of the kind of.  Either way
the method of the `Storer` is invoked once, with the key. -/
theorem query_delegates {σ : Type} (c : Core σ) (w : World σ) (userID : UUID)
    (email : MailAddress) :
    (∀ (st : σ) (u : UserEntity), c.store.QueryByID w.store userID = (st, u, none) →
      (Core.QueryByID c w userID).1 = (u, none))
    ∧ (∀ (st : σ) (u : UserEntity) (e : Error),
        c.store.QueryByID w.store userID = (st, u, some e) →
        (Core.QueryByID c w userID).1
          = (UserEntity.zero,
              some (fmt.Errorf "query: userID[%s]: %w" [FmtArg.uuid userID] e))
        ∧ errors.Is (Core.QueryByID c w userID).1.2 (some e) = true
        ∧ ∀ t : Error, errors.Is (some e) (some t) = true →
            errors.Is (Core.QueryByID c w userID).1.2 (some t) = true)
    ∧ (Core.QueryByID c w userID).2.calls = w.calls ++ [StorerCall.QueryByID userID]
    ∧ (Core.QueryByID c w userID).2.store = (c.store.QueryByID w.store userID).1
    ∧ (∀ (st : σ) (u : UserEntity), c.store.QueryByEmail w.store email = (st, u, none) →
      (Core.QueryByEmail c w email).1 = (u, none))
    ∧ (∀ (st : σ) (u : UserEntity) (e : Error),
        c.store.QueryByEmail w.store email = (st, u, some e) →
        (Core.QueryByEmail c w email).1
          = (UserEntity.zero,
              some (fmt.Errorf "query: email[%s]: %w" [FmtArg.address email] e))
        ∧ errors.Is (Core.QueryByEmail c w email).1.2 (some e) = true
        ∧ ∀ t : Error, errors.Is (some e) (some t) = true →
            errors.Is (Core.QueryByEmail c w email).1.2 (some t) = true)
    ∧ (Core.QueryByEmail c w email).2.calls = w.calls ++ [StorerCall.QueryByEmail email]
    ∧ (Core.QueryByEmail c w email).2.store = (c.store.QueryByEmail w.store email).1 := by
  simp only [Core.QueryByID, Core.QueryByEmail]
  generalize c.store.QueryByID w.store userID = r1
  generalize c.store.QueryByEmail w.store email = r2
  obtain ⟨st1, u1, e1⟩ := r1
  obtain ⟨st2, u2, e2⟩ := r2
  refine ⟨?_, ?_, ?_, ?_, ?_, ?_, ?_, ?_⟩
  · intro st u h
    simp only [Prod.mk.injEq] at h
    obtain ⟨-, hu, he⟩ := h
    subst hu
    subst he
    rfl
  · intro st u e h
    simp only [Prod.mk.injEq] at h
    obtain ⟨-, -, he⟩ := h
    subst he
    refine ⟨rfl, ?_, ?_⟩
    · simp [errors.Is, fmt.Errorf, Error.Is_wrap_inner]
    · intro t ht
      simp only [errors.Is] at ht ⊢
      exact Error.Is_wrap_of_Is _ _ _ _ ht
  · cases e1 <;> rfl
  · cases e1 <;> rfl
  · intro st u h
    simp only [Prod.mk.injEq] at h
    obtain ⟨-, hu, he⟩ := h
    subst hu
    subst he
    rfl
  · intro st u e h
    simp only [Prod.mk.injEq] at h
    obtain ⟨-, -, he⟩ := h
    subst he
    refine ⟨rfl, ?_, ?_⟩
    · simp [errors.Is, fmt.Errorf, Error.Is_wrap_inner]
    · intro t ht
      simp only [errors.Is] at ht ⊢
      exact Error.Is_wrap_of_Is _ _ _ _ ht
  · cases e2 <;> rfl
  · cases e2 <;> rfl

/-- Witness of `query_delegates`: over the list-backed `Storer` holding `alice`, the
lookups of her identifier and of her e-mail succeed, and the lookups of the identifier
99 and of the e-mail of `bob` fail with `ErrNotFound`. -/
theorem query_delegates_witness :
    (sample.core.store.QueryByID
        (Core.Register sample.env sample.core sample.world sample.alice).2.store 99
      = ((Core.Register sample.env sample.core sample.world sample.alice).2.store,
          UserEntity.zero, some ErrNotFound)
      ∧ errors.Is (Core.QueryByID sample.core
          (Core.Register sample.env sample.core sample.world sample.alice).2 99).1.2
          (some ErrNotFound) = true)
    ∧ (sample.core.store.QueryByEmail
        (Core.Register sample.env sample.core sample.world sample.alice).2.store
        sample.alice.Email
      = ((Core.Register sample.env sample.core sample.world sample.alice).2.store,
          (Core.Register sample.env sample.core sample.world sample.alice).1.1, none)
      ∧ (Core.QueryByEmail sample.core
          (Core.Register sample.env sample.core sample.world sample.alice).2
          sample.alice.Email).1
        = ((Core.Register sample.env sample.core sample.world sample.alice).1.1, none))
    ∧ (sample.core.store.QueryByID
        (Core.Register sample.env sample.core sample.world sample.alice).2.store 3
      = ((Core.Register sample.env sample.core sample.world sample.alice).2.store,
          (Core.Register sample.env sample.core sample.world sample.alice).1.1, none)
      ∧ (Core.QueryByID sample.core
          (Core.Register sample.env sample.core sample.world sample.alice).2 3).1
        = ((Core.Register sample.env sample.core sample.world sample.alice).1.1, none))
    ∧ (sample.core.store.QueryByEmail
        (Core.Register sample.env sample.core sample.world sample.alice).2.store
        sample.bob.Email
      = ((Core.Register sample.env sample.core sample.world sample.alice).2.store,
          UserEntity.zero, some ErrNotFound)
      ∧ errors.Is (Core.QueryByEmail sample.core
          (Core.Register sample.env sample.core sample.world sample.alice).2
          sample.bob.Email).1.2 (some ErrNotFound) = true) :=
  have h := query_delegates sample.core
    (Core.Register sample.env sample.core sample.world sample.alice).2 99 sample.alice.Email
  have k := query_delegates sample.core
    (Core.Register sample.env sample.core sample.world sample.alice).2 3 sample.bob.Email
  ⟨⟨by decide,
      (h.2.1 (Core.Register sample.env sample.core sample.world sample.alice).2.store
        UserEntity.zero ErrNotFound (by decide)).2.1⟩,
    ⟨by decide,
      h.2.2.2.2.1 (Core.Register sample.env sample.core sample.world sample.alice).2.store
        (Core.Register sample.env sample.core sample.world sample.alice).1.1 (by decide)⟩,
    ⟨by decide,
      k.1 (Core.Register sample.env sample.core sample.world sample.alice).2.store
        (Core.Register sample.env sample.core sample.world sample.alice).1.1 (by decide)⟩,
    ⟨by decide,
      (k.2.2.2.2.2.1
        (Core.Register sample.env sample.core sample.world sample.alice).2.store
        UserEntity.zero ErrNotFound (by decide)).2.1⟩⟩

end user

/-! ## The property store adapter -/

namespace propertydb

open db property

/-- The struct `QueryByID` scans into never receives a name: the query does not select
the column `name`, so whatever the table holds and whatever the outcome, the property
returned has the empty name. -/
theorem queryByID_name_empty (t : UUIDText) (s : Store) (d : Database) (id : UUID) :
    (Store.QueryByID t s d id).2.1.Name = "" := by
  simp only [Store.QueryByID, NamedQueryStruct, lookup, if_true]
  cases d.fault with
  | some e =>
    simp only
    split <;> rfl
  | none =>
    simp only
    cases d.properties.find? (fun r => decide (r.get Column.id = Value.text (t.String id))) with
    | none =>
      simp only
      split <;> rfl
    | some row =>
      simp only [scan, dbProperty.set, dbProperty.get, dbProperty.zero, toCoreProperty]
      cases t.Parse row.ID with
      | mk pid perr =>
        cases perr with
        | some e => rfl
        | none =>
          simp only
          cases t.Parse row.ManagerID with
          | mk mid merr =>
            cases merr with
            | some e => rfl
            | none => rfl

/-- What the round trip does return: when the backing store answers both statements, no
row of the table has the identifier of the property, and the textual form of its two
identifiers reads back, `Create` followed by `QueryByID` succeeds and returns the
property with the empty name and every other field as given. -/
theorem create_then_queryByID_other_fields (t : UUIDText) (s : Store) (d : Database)
    (core : Property) (hf : d.fault = none) (hf2 : d.next.fault = none)
    (hfresh : ∀ r ∈ d.properties, r.ID ≠ t.String core.ID)
    (hid : t.Parse (t.String core.ID) = (core.ID, none))
    (hmid : t.Parse (t.String core.ManagerID) = (core.ManagerID, none)) :
    (Store.Create t s d core).2 = none
    ∧ (Store.QueryByID t s (Store.Create t s d core).1 core.ID).2
        = ({ core with Name := "" }, none) := by
  have hany : d.properties.any (fun r => decide (r.ID = t.String core.ID)) = false := by
    rw [List.any_eq_false]
    intro r hr
    simpa using hfresh r hr
  have hcreate : Store.Create t s d core
      = ({ properties := d.properties ++ [toDBProperty t core], faults := d.faults.tail },
          none) := by
    simp [Store.Create, NamedExecContext, hf, lookup, bindNamed, dbProperty.named,
      dbProperty.get, toDBProperty, Column.admits, assign, dbProperty.set, Database.next,
      dbProperty.zero, hany]
  have hfault : Database.fault
      { properties := d.properties ++ [toDBProperty t core], faults := d.faults.tail }
      = none := hf2
  have hfind : (d.properties ++ [toDBProperty t core]).find?
      (fun r => decide (r.get Column.id = Value.text (t.String core.ID)))
      = some (toDBProperty t core) := by
    rw [List.find?_append]
    have : d.properties.find?
        (fun r => decide (r.get Column.id = Value.text (t.String core.ID))) = none := by
      rw [List.find?_eq_none]
      intro r hr
      simpa [dbProperty.get] using hfresh r hr
    rw [this]
    simp [dbProperty.get, toDBProperty]
  refine ⟨by rw [hcreate], ?_⟩
  rw [hcreate]
  simp only [Store.QueryByID, NamedQueryStruct, hfault, lookup, if_true, hfind]
  simp [scan, dbProperty.set, dbProperty.get, dbProperty.zero, toDBProperty, toCoreProperty,
    hid, hmid]

/-- C7, the code at the failing input: on the table with no rows `Create` of the
property `house`, whose name is `A`, succeeds, the following `QueryByID` of its
identifier succeeds, and the property it returns is `house` with the empty name, which
is not `house`. -/
theorem create_then_queryByID_loses_name :
    (Store.Create sample.text sample.store sample.empty sample.house).2 = none
    ∧ (Store.QueryByID sample.text sample.store
        (Store.Create sample.text sample.store sample.empty sample.house).1
        sample.house.ID).2.2 = none
    ∧ (Store.QueryByID sample.text sample.store
        (Store.Create sample.text sample.store sample.empty sample.house).1
        sample.house.ID).2.1 = { sample.house with Name := "" }
    ∧ sample.house.Name = "A"
    ∧ (Store.QueryByID sample.text sample.store
        (Store.Create sample.text sample.store sample.empty sample.house).1
        sample.house.ID).2.1 ≠ sample.house := by
  decide

/-- C8: when the backing store answers the statement, `Update` succeeds, and the table
afterwards is the table before in which every row whose `id` is the textual identifier
of the property has name, the three address levels, street, status and `updated_at`
replaced by those of the property and keeps its own `id`, `manager_id` and
`created_at`, whatever manager identifier and creation timestamp the property carries;
every other row is as before. -/
theorem update_sets_mutable_columns (t : UUIDText) (s : Store) (d : Database)
    (core : Property) (h : d.fault = none) :
    (Store.Update t s d core).2 = none
    ∧ (Store.Update t s d core).1.properties
        = d.properties.map (fun r =>
            if r.ID = t.String core.ID then
              { ID := r.ID,
                ManagerID := r.ManagerID,
                Name := core.Name,
                AddressLevel1ID := core.AddressLevel1ID,
                AddressLevel2ID := core.AddressLevel2ID,
                AddressLevel3ID := core.AddressLevel3ID,
                Street := core.Street,
                Status := core.Status,
                CreatedAt := r.CreatedAt,
                UpdatedAt := core.UpdatedAt }
            else r) := by
  simp [Store.Update, NamedExecContext, h, lookup, bindNamed, dbProperty.named, dbProperty.get,
    toDBProperty, Column.admits, assign, dbProperty.set, Database.next]

/-- Witness of `update_sets_mutable_columns`: the table holding `house`, updated with
`houseEdited`, which carries another manager and another creation time. -/
theorem update_sets_mutable_columns_witness :
    (Store.Create sample.text sample.store sample.empty sample.house).1.fault = none
    ∧ (Store.Update sample.text sample.store
        (Store.Create sample.text sample.store sample.empty sample.house).1
        sample.houseEdited).2 = none
    ∧ (Store.Update sample.text sample.store
        (Store.Create sample.text sample.store sample.empty sample.house).1
        sample.houseEdited).1.properties
      = [{ ID := "00000000-0000-0000-0000-000000000001",
           ManagerID := "00000000-0000-0000-0000-000000000002",
           Name := "B", AddressLevel1ID := "11", AddressLevel2ID := "21",
           AddressLevel3ID := "31", Street := "Side", Status := "CLOSED",
           CreatedAt := 100, UpdatedAt := 200 }] :=
  have h := update_sets_mutable_columns sample.text sample.store
    (Store.Create sample.text sample.store sample.empty sample.house).1 sample.houseEdited
    (by decide)
  ⟨by decide, h.1, by decide⟩

/-- C9: when the transaction handle adapts to the execution context `ec` and the
receiver at address `s` is the Store `self`, `ExecuteUnderTransaction` returns with no
error the address of a Store that was not on the heap before, whose log is the log of
`self` and whose db is `ec`, and every Store that was on the heap, the receiver
included, is as before.  When the handle does not adapt, it returns no Store and the
adaptation error, and the heap is as before. -/
theorem executeUnderTransaction_leaves_receiver
    (GetExtContext : Transaction → ExtContext × Option Error) (heap : Heap) (s : Nat)
    (tx : Transaction) :
    (∀ (ec : ExtContext) (self : Store), GetExtContext tx = (ec, none) →
      heap[s]? = some self →
      ∃ (heap1 : Heap) (a : Nat),
        Store.ExecuteUnderTransaction GetExtContext heap s tx = some (heap1, some a, none)
        ∧ heap[a]? = none
        ∧ heap1[a]? = some { log := self.log, db := ec }
        ∧ heap1[s]? = some self
        ∧ ∀ (b : Nat) (v : Store), heap[b]? = some v → heap1[b]? = some v)
    ∧ (∀ (ec : ExtContext) (e : Error), GetExtContext tx = (ec, some e) →
      Store.ExecuteUnderTransaction GetExtContext heap s tx = some (heap, none, some e)) := by
  constructor
  · intro ec self hg hs
    refine ⟨heap ++ [{ log := self.log, db := ec }], heap.length, ?_, ?_, ?_, ?_, ?_⟩
    · simp [Store.ExecuteUnderTransaction, hg, hs]
    · simp
    · simp
    · rw [List.getElem?_append_left (List.getElem?_eq_some.mp hs).1]
      exact hs
    · intro b v hb
      rw [List.getElem?_append_left (List.getElem?_eq_some.mp hb).1]
      exact hb
  · intro ec e hg
    simp [Store.ExecuteUnderTransaction, hg]

/-- Witness of `executeUnderTransaction_leaves_receiver`: the heap holding one Store, a
handle that adapts and a handle that does not. -/
theorem executeUnderTransaction_leaves_receiver_witness :
    (sample.getExtContext { handle := 5 } = ({ handle := 5 }, none)
      ∧ [sample.store][0]? = some sample.store
      ∧ Store.ExecuteUnderTransaction sample.getExtContext [sample.store] 0 { handle := 5 }
        = some ([sample.store, { log := sample.store.log, db := { handle := 5 } }],
            some 1, none)
      ∧ ∃ (heap1 : Heap) (a : Nat),
        Store.ExecuteUnderTransaction sample.getExtContext [sample.store] 0 { handle := 5 }
          = some (heap1, some a, none)
        ∧ [sample.store][a]? = none
        ∧ heap1[a]? = some { log := sample.store.log, db := { handle := 5 } }
        ∧ heap1[0]? = some sample.store
        ∧ ∀ (b : Nat) (v : Store), [sample.store][b]? = some v → heap1[b]? = some v)
    ∧ (sample.getExtContext { handle := 500 } = ({ handle := 0 }, some (Error.new 34))
      ∧ Store.ExecuteUnderTransaction sample.getExtContext [sample.store] 0
          { handle := 500 }
        = some ([sample.store], none, some (Error.new 34))) :=
  have h := executeUnderTransaction_leaves_receiver sample.getExtContext [sample.store] 0
  ⟨⟨by decide, by decide, by decide,
      (h { handle := 5 }).1 { handle := 5 } sample.store (by decide) (by decide)⟩,
    ⟨by decide, (h { handle := 500 }).2 { handle := 0 } (Error.new 34) (by decide)⟩⟩

/-- C10: `QueryByID` and the not-found kind.

* If the backing store answers the query and no row of the table has the textual
  identifier as `id`, `QueryByID` returns the zero-value `Property` and
  `namedquerystruct:` wrapping `property.ErrNotFound`.
* That is the case after a `Delete` of a property with this identifier that the store
  answered, whatever the table held.
* If the backing store fails the query with an error `e` of the kind `ErrDBNotFound`,
  the result is the same.
* If the backing store fails the query with an error `e` not of the kind
  `ErrDBNotFound`, `QueryByID` returns the zero-value `Property` and
  `namedquerystruct:` wrapping `e`, which is of the kind of a sentinel exactly when `e`
  is: it is not of the not-found kind unless `e` is. -/
theorem queryByID_not_found (t : UUIDText) (s : Store) (d : Database) (id : UUID) :
    (d.fault = none → (∀ r ∈ d.properties, r.ID ≠ t.String id) →
      (Store.QueryByID t s d id).2
        = (Property.zero, some (fmt.Errorf "namedquerystruct: %w" [] property.ErrNotFound))
      ∧ errors.Is (Store.QueryByID t s d id).2.2 (some property.ErrNotFound) = true)
    ∧ (∀ core : Property, core.ID = id → d.fault = none →
      (Store.Delete t s d core).1.fault = none →
      (Store.Delete t s d core).2 = none
      ∧ (Store.QueryByID t s (Store.Delete t s d core).1 id).2
        = (Property.zero, some (fmt.Errorf "namedquerystruct: %w" [] property.ErrNotFound))
      ∧ errors.Is (Store.QueryByID t s (Store.Delete t s d core).1 id).2.2
          (some property.ErrNotFound) = true)
    ∧ (∀ e : Error, d.fault = some e → errors.Is (some e) (some ErrDBNotFound) = true →
      (Store.QueryByID t s d id).2
        = (Property.zero, some (fmt.Errorf "namedquerystruct: %w" [] property.ErrNotFound))
      ∧ errors.Is (Store.QueryByID t s d id).2.2 (some property.ErrNotFound) = true)
    ∧ (∀ e : Error, d.fault = some e → errors.Is (some e) (some ErrDBNotFound) = false →
      (Store.QueryByID t s d id).2
        = (Property.zero, some (fmt.Errorf "namedquerystruct: %w" [] e))
      ∧ errors.Is (Store.QueryByID t s d id).2.2 (some e) = true
      ∧ errors.Is (Store.QueryByID t s d id).2.2 (some ErrDBNotFound) = false
      ∧ (∀ a : Nat, errors.Is (Store.QueryByID t s d id).2.2 (some (Error.new a))
          = errors.Is (some e) (some (Error.new a)))
      ∧ (errors.Is (some e) (some property.ErrNotFound) = false →
          errors.Is (Store.QueryByID t s d id).2.2 (some property.ErrNotFound) = false)) := by
  have hmiss : ∀ d0 : Database, d0.fault = none →
      (∀ r ∈ d0.properties, r.ID ≠ t.String id) →
      (Store.QueryByID t s d0 id).2
        = (Property.zero, some (fmt.Errorf "namedquerystruct: %w" [] property.ErrNotFound))
      ∧ errors.Is (Store.QueryByID t s d0 id).2.2 (some property.ErrNotFound) = true := by
    intro d0 hf hrows
    have hfind : d0.properties.find?
        (fun r => decide (r.get Column.id = Value.text (t.String id))) = none := by
      rw [List.find?_eq_none]
      intro r hr
      simpa [dbProperty.get] using hrows r hr
    simp [Store.QueryByID, NamedQueryStruct, hf, lookup, hfind, errors.Is, ErrDBNotFound,
      Error.Is, fmt.Errorf, property.ErrNotFound]
  refine ⟨hmiss d, ?_, ?_, ?_⟩
  · intro core hid hf hf2
    subst hid
    have hdel : Store.Delete t s d core
        = ({ properties := d.properties.filter
              (fun r => !decide (r.get Column.id = Value.text (t.String core.ID))),
             faults := d.faults.tail }, none) := by
      simp [Store.Delete, NamedExecContext, hf, lookup, Database.next]
    refine ⟨by rw [hdel], ?_⟩
    apply hmiss _ hf2
    intro r hr
    rw [hdel] at hr
    simp only [List.mem_filter] at hr
    simpa [dbProperty.get] using hr.2
  · intro e hf he
    simp only [Store.QueryByID, NamedQueryStruct, hf, he, if_true]
    simp [errors.Is, Error.Is, fmt.Errorf, property.ErrNotFound]
  · intro e hf he
    simp only [Store.QueryByID, NamedQueryStruct, hf, he]
    simp only [errors.Is] at he
    simp only [ErrDBNotFound] at he
    simp [errors.Is, Error.Is, fmt.Errorf, Error.Is_refl, ErrDBNotFound, he,
      property.ErrNotFound]

/-- Witness of `queryByID_not_found`: an identifier never created, the identifier of
`house` after `Create` and `Delete`, a store that fails with an error of the kind
`ErrDBNotFound`, and a store that fails with another error. -/
theorem queryByID_not_found_witness :
    (sample.empty.fault = none
      ∧ (∀ r ∈ sample.empty.properties, r.ID ≠ sample.text.String 2)
      ∧ errors.Is (Store.QueryByID sample.text sample.store sample.empty 2).2.2
          (some property.ErrNotFound) = true)
    ∧ ((Store.Create sample.text sample.store sample.empty sample.house).1.fault = none
      ∧ (Store.Delete sample.text sample.store
          (Store.Create sample.text sample.store sample.empty sample.house).1
          sample.house).1.fault = none
      ∧ errors.Is (Store.QueryByID sample.text sample.store
          (Store.Delete sample.text sample.store
            (Store.Create sample.text sample.store sample.empty sample.house).1
            sample.house).1 1).2.2 (some property.ErrNotFound) = true)
    ∧ (Database.fault { properties := [], faults := [some (fmt.Errorf "rows: %w" [] ErrDBNotFound)] }
        = some (fmt.Errorf "rows: %w" [] ErrDBNotFound)
      ∧ errors.Is (some (fmt.Errorf "rows: %w" [] ErrDBNotFound)) (some ErrDBNotFound) = true
      ∧ errors.Is (Store.QueryByID sample.text sample.store
          { properties := [], faults := [some (fmt.Errorf "rows: %w" [] ErrDBNotFound)] } 1).2.2
          (some property.ErrNotFound) = true)
    ∧ (Database.fault { properties := [], faults := [some (Error.new 77)] }
        = some (Error.new 77)
      ∧ errors.Is (some (Error.new 77)) (some ErrDBNotFound) = false
      ∧ errors.Is (some (Error.new 77)) (some property.ErrNotFound) = false
      ∧ (Store.QueryByID sample.text sample.store
          { properties := [], faults := [some (Error.new 77)] } 1).2
        = (Property.zero, some (fmt.Errorf "namedquerystruct: %w" [] (Error.new 77)))
      ∧ errors.Is (Store.QueryByID sample.text sample.store
          { properties := [], faults := [some (Error.new 77)] } 1).2.2
          (some property.ErrNotFound) = false) :=
  have h1 := (queryByID_not_found sample.text sample.store sample.empty 2).1
    (by decide) (by decide)
  have h2 := (queryByID_not_found sample.text sample.store
    (Store.Create sample.text sample.store sample.empty sample.house).1 1).2.1
    sample.house (by decide) (by decide) (by decide)
  have h3 := (queryByID_not_found sample.text sample.store
    { properties := [], faults := [some (fmt.Errorf "rows: %w" [] ErrDBNotFound)] } 1).2.2.1
    (fmt.Errorf "rows: %w" [] ErrDBNotFound) (by decide) (by decide)
  have h4 := (queryByID_not_found sample.text sample.store
    { properties := [], faults := [some (Error.new 77)] } 1).2.2.2
    (Error.new 77) (by decide) (by decide)
  ⟨⟨by decide, by decide, h1.2⟩, ⟨by decide, by decide, h2.2.2⟩,
    ⟨by decide, by decide, h3.2⟩,
    ⟨by decide, by decide, by decide, h4.1, h4.2.2.2.2 (by decide)⟩⟩

end propertydb
